import Mathlib

/-!
Verification of the FleetLink vehicle-booking backend.

This file shallowly embeds the core services of the repository
(ride-duration estimation, pincode validation, the overlap query on
bookings, booking creation and lifecycle, and the vehicle directory)
as executable Lean definitions, and proves or refutes the stated
properties of the system.

Modelling conventions:
* timestamps are rationals, measured in milliseconds (like JS Date values);
* durations are rationals, measured in hours;
* the document store is a pair of lists (vehicles, bookings) threaded
  explicitly through every operation;
* a thrown JS error is an `Err` value; each constructor corresponds to one
  throw site / message of the source;
* a JS falsy/absent field is `Option.none`.
-/

namespace FleetLink

/-- Vehicle status enum of the Vehicle schema: active, maintenance, retired. -/
inductive VehicleStatus
  | active
  | maintenance
  | retired
deriving DecidableEq

/-- Booking status enum of the Booking schema:
confirmed, in-progress, completed, cancelled. -/
inductive BookingStatus
  | confirmed
  | inProgress
  | completed
  | cancelled
deriving DecidableEq

/-- Error kinds, one per throw site of the services (the source raises
JS Error values whose message strings distinguish the kinds). -/
inductive Err
  | missingFields
  | missingCriteria
  | vehicleNotFound
  | vehicleNotActive
  | invalidPincode
  | invalidTimeFormat
  | pastStartTime
  | invalidDuration
  | slotUnavailable
  | notFound
  | alreadyCompleted
  | alreadyCancelled
  | tooCloseToStart
  | notCancelled
  | hasActiveBookings
  | duplicateRegistration
  | endBeforeStart
deriving DecidableEq

deriving instance DecidableEq for Except

/-- A JavaScript value as it may reach `isValidPincode` (the regex test
coerces its argument to a string). We model the value classes that are
relevant: strings, integral numbers, null, undefined. -/
inductive JSValue
  | str (s : String)
  | num (n : ℤ)
  | nullV
  | undef
deriving DecidableEq

/-- JS ToString coercion, restricted to the modelled value classes
(an integral number prints as its decimal representation). -/
def jsToString : JSValue → String
  | .str s => s
  | .num n => toString n
  | .nullV => "null"
  | .undef => "undefined"

/-- Whether the JS value is of string type. -/
def isStringValue : JSValue → Bool
  | .str _ => true
  | _ => false

/-- Core of `RideCalculationService.isValidPincode`: the regex
test of the pattern anchored-six-digits on a string. -/
def isValidPincode (s : String) : Bool :=
  s.length == 6 && s.data.all (fun c => c.isDigit)

/-- `RideCalculationService.isValidPincode(pincode)` on an arbitrary JS
value: `regex.test(pincode)` first coerces the argument to a string
(ECMAScript ToString), then matches. -/
def isValidPincodeJS (v : JSValue) : Bool :=
  isValidPincode (jsToString v)

/-- JS `parseInt` on a validated 6-digit pincode string: its decimal value.
Only applied after `isValidPincode` has succeeded, as in the source. -/
def parsePin (s : String) : ℤ :=
  s.data.foldl (fun a c => a * 10 + ((c.toNat : ℤ) - 48)) 0

/-- `RideCalculationService.calculateEstimatedDuration(fromPincode, toPincode)`:
validates both pincodes, computes `Math.abs(toPin - fromPin) % 24`, and
returns `Math.max(duration, 0.5)`. `none` models the thrown invalid-pincode
error. -/
def calculateEstimatedDuration (fromPincode toPincode : String) : Option ℚ :=
  if isValidPincode fromPincode && isValidPincode toPincode then
    some (max (((parsePin toPincode - parsePin fromPincode).natAbs % 24 : ℕ) : ℚ) (1 / 2))
  else
    none

/-- `RideCalculationService.calculateEndTime(startTime, durationHours)`:
requires a positive duration, returns `startTime + durationHours` hours
in milliseconds. `none` models the thrown error (unparseable start times
are handled before the call in our embedding, since times are already
parsed rationals). -/
def calculateEndTime (startTime durationHours : ℚ) : Option ℚ :=
  if durationHours ≤ 0 then none
  else some (startTime + durationHours * 3600000)

/-- `RideCalculationService.calculateEstimatedDistance`: duration times an
assumed 50 km/h average speed, rounded (JS `Math.round` = round half up,
which agrees with Mathlib `round` on rationals). -/
def calculateEstimatedDistance (fromPincode toPincode : String) : Option ℤ :=
  match calculateEstimatedDuration fromPincode toPincode with
  | none => none
  | some d => some (round (d * 50))

/-- Route information bundle returned by `RideCalculationService.getRouteInfo`. -/
structure RouteInfo where
  fromPincode : String
  toPincode : String
  estimatedDurationHours : ℚ
  estimatedDistanceKm : ℤ
  estimatedCost : ℤ
  route : String
deriving DecidableEq

/-- `RideCalculationService.getRouteInfo(fromPincode, toPincode, capacityKg)`:
duration, distance, and cost `round(500 + distance * 10 * max(1, capacityKg/1000))`. -/
def getRouteInfo (fromPincode toPincode : String) (capacityKg : ℤ) : Option RouteInfo :=
  match calculateEstimatedDuration fromPincode toPincode,
        calculateEstimatedDistance fromPincode toPincode with
  | some duration, some distance =>
      some { fromPincode := fromPincode
             toPincode := toPincode
             estimatedDurationHours := duration
             estimatedDistanceKm := distance
             estimatedCost := round ((500 : ℚ) + (distance : ℚ) * 10 * max 1 ((capacityKg : ℚ) / 1000))
             route := fromPincode ++ " → " ++ toPincode }
  | _, _ => none

/-- A vehicle document of the Vehicle schema. Schema field validators
(name length, capacity and tyre ranges) are not modelled: no claim
depends on them, and omitting them only enlarges the set of reachable
states, which strengthens every invariant proved below. -/
structure Vehicle where
  id : ℕ
  name : String
  capacityKg : ℤ
  tyres : ℤ
  status : VehicleStatus
  registrationNumber : String
  createdAt : ℚ
deriving DecidableEq

/-- A booking document of the Booking schema. -/
structure Booking where
  id : ℕ
  vehicleId : ℕ
  customerId : String
  fromPincode : String
  toPincode : String
  startTime : ℚ
  endTime : ℚ
  estimatedRideDurationHours : ℚ
  status : BookingStatus
  actualStartTime : Option ℚ
  actualEndTime : Option ℚ
  notes : Option String
  createdAt : ℚ
deriving DecidableEq

/-- The document store: the two collections, plus fresh-id counters
standing in for ObjectId generation. -/
structure State where
  vehicles : List Vehicle
  bookings : List Booking
  nextVehicleId : ℕ
  nextBookingId : ℕ
deriving DecidableEq

/-- The empty store. -/
def initialState : State :=
  { vehicles := [], bookings := [], nextVehicleId := 0, nextBookingId := 0 }

/-- Statuses counted as active by the overlap query and the retire check. -/
def isActiveStatus (s : BookingStatus) : Bool :=
  s == .confirmed || s == .inProgress

/-- `Vehicle.findById`. -/
def findVehicleById (st : State) (vehicleId : ℕ) : Option Vehicle :=
  st.vehicles.find? (fun v => v.id == vehicleId)

/-- `Booking.findById`. -/
def findBookingById (st : State) (bookingId : ℕ) : Option Booking :=
  st.bookings.find? (fun b => b.id == bookingId)

/-- The document filter of `bookingSchema.statics.findOverlappingBookings`:
same vehicle, active status, `startTime < endTime(new)` and
`endTime > startTime(new)`, and not the excluded id (when given). -/
def matchesOverlapQuery (vehicleId : ℕ) (startTime endTime : ℚ)
    (excludeBookingId : Option ℕ) (b : Booking) : Bool :=
  b.vehicleId == vehicleId && isActiveStatus b.status &&
  decide (b.startTime < endTime) && decide (b.endTime > startTime) &&
  (match excludeBookingId with
   | none => true
   | some x => b.id != x)

/-- `Booking.findOverlappingBookings(vehicleId, startTime, endTime, excludeBookingId)`. -/
def findOverlappingBookings (bookings : List Booking) (vehicleId : ℕ)
    (startTime endTime : ℚ) (excludeBookingId : Option ℕ) : List Booking :=
  bookings.filter (matchesOverlapQuery vehicleId startTime endTime excludeBookingId)

/-- A start-time input as received over HTTP: either a string `new Date`
cannot parse, or one parsing to a concrete timestamp. -/
inductive DateInput
  | invalid
  | time (t : ℚ)
deriving DecidableEq

/-- Input of `BookingService.createBooking`; `none` models a JS falsy or
absent field (the source rejects those with its required-fields check). -/
structure BookingInput where
  vehicleId : Option ℕ
  fromPincode : Option String
  toPincode : Option String
  startTime : Option DateInput
  customerId : Option String
deriving DecidableEq

/-- `BookingService.createBooking(bookingData)`, threading the store:
returns the result together with the store after the call. The final
`endBeforeStart` guard is the pre-save hook of the Booking schema. -/
def createBooking (st : State) (now : ℚ) (inp : BookingInput) :
    Except Err Booking × State :=
  match inp.vehicleId, inp.fromPincode, inp.toPincode, inp.startTime, inp.customerId with
  | some vehicleId, some fromPincode, some toPincode, some startInput, some customerId =>
    (match findVehicleById st vehicleId with
     | none => (.error .vehicleNotFound, st)
     | some vehicle =>
       if vehicle.status != .active then (.error .vehicleNotActive, st)
       else if !(isValidPincode fromPincode && isValidPincode toPincode) then
         (.error .invalidPincode, st)
       else match startInput with
         | .invalid => (.error .invalidTimeFormat, st)
         | .time bookingStartTime =>
           if bookingStartTime ≤ now then (.error .pastStartTime, st)
           else match calculateEstimatedDuration fromPincode toPincode with
             | none => (.error .invalidPincode, st)
             | some estimatedRideDurationHours =>
               match calculateEndTime bookingStartTime estimatedRideDurationHours with
               | none => (.error .invalidDuration, st)
               | some bookingEndTime =>
                 if (findOverlappingBookings st.bookings vehicleId bookingStartTime bookingEndTime none).length > 0 then
                   (.error .slotUnavailable, st)
                 else if bookingEndTime ≤ bookingStartTime then (.error .endBeforeStart, st)
                 else
                   let booking : Booking :=
                     { id := st.nextBookingId, vehicleId := vehicleId,
                       customerId := customerId, fromPincode := fromPincode,
                       toPincode := toPincode, startTime := bookingStartTime,
                       endTime := bookingEndTime,
                       estimatedRideDurationHours := estimatedRideDurationHours,
                       status := .confirmed, actualStartTime := none,
                       actualEndTime := none, notes := none, createdAt := now }
                   (.ok booking,
                    { st with bookings := st.bookings ++ [booking],
                              nextBookingId := st.nextBookingId + 1 }))
  | _, _, _, _, _ => (.error .missingFields, st)

/-- The `additionalData` argument of `BookingService.updateBookingStatus`,
restricted to the schema fields the system passes through it (the HTTP
controller whitelists `notes`; the service itself inspects
`actualStartTime` and `actualEndTime`). -/
structure UpdateData where
  actualStartTime : Option ℚ
  actualEndTime : Option ℚ
  notes : Option String
deriving DecidableEq

/-- The empty `additionalData` object. -/
def emptyUpdate : UpdateData :=
  { actualStartTime := none, actualEndTime := none, notes := none }

/-- `findByIdAndUpdate` document merge: fields present in the update
replace the stored ones, absent fields are kept. -/
def mergeUpdate (b : Booking) (status : BookingStatus) (u : UpdateData) : Booking :=
  { b with
    status := status
    actualStartTime := match u.actualStartTime with
      | some t => some t
      | none => b.actualStartTime
    actualEndTime := match u.actualEndTime with
      | some t => some t
      | none => b.actualEndTime
    notes := match u.notes with
      | some n => some n
      | none => b.notes }

/-- The two timestamp-defaulting steps of `updateBookingStatus`: add
`actualStartTime = now` when the new status is in-progress and the update
itself carries none (note: the stored booking is not consulted), then
similarly `actualEndTime` for completed. -/
def effectiveUpdate (now : ℚ) (status : BookingStatus) (additionalData : UpdateData) :
    UpdateData :=
  let u1 := if status == .inProgress && additionalData.actualStartTime == none then
              { additionalData with actualStartTime := some now }
            else additionalData
  if status == .completed && u1.actualEndTime == none then
    { u1 with actualEndTime := some now }
  else u1

/-- `BookingService.updateBookingStatus(bookingId, status, additionalData)`:
builds the update document (timestamp defaulting per `effectiveUpdate`),
then applies `findByIdAndUpdate`. -/
def updateBookingStatus (st : State) (now : ℚ) (bookingId : ℕ)
    (status : BookingStatus) (additionalData : UpdateData) :
    Except Err Booking × State :=
  let u2 := effectiveUpdate now status additionalData
  match findBookingById st bookingId with
  | none => (.error .notFound, st)
  | some b =>
    (.ok (mergeUpdate b status u2),
     { st with bookings := st.bookings.map (fun x =>
         if x.id == bookingId then mergeUpdate x status u2 else x) })

/-- `BookingService.cancelBooking(bookingId, reason)`. -/
def cancelBooking (st : State) (now : ℚ) (bookingId : ℕ) (reason : String) :
    Except Err Booking × State :=
  match findBookingById st bookingId with
  | none => (.error .notFound, st)
  | some booking =>
    if booking.status == .completed then (.error .alreadyCompleted, st)
    else if booking.status == .cancelled then (.error .alreadyCancelled, st)
    else if (booking.startTime - now) / 3600000 < 2 then (.error .tooCloseToStart, st)
    else
      let cancelNotes := if reason != "" then "Cancelled: " ++ reason else "Cancelled by user"
      updateBookingStatus st now bookingId .cancelled { emptyUpdate with notes := some cancelNotes }

/-- `BookingService.deleteBooking(bookingId)`: hard delete, only for
cancelled bookings. -/
def deleteBooking (st : State) (bookingId : ℕ) : Except Err Bool × State :=
  match findBookingById st bookingId with
  | none => (.error .notFound, st)
  | some booking =>
    if booking.status != .cancelled then (.error .notCancelled, st)
    else (.ok true, { st with bookings := st.bookings.filter (fun x => !(x.id == bookingId)) })

/-- Input of `VehicleService.createVehicle` as shaped by the controller
(name, capacityKg, tyres, optional registrationNumber). -/
structure VehicleInput where
  name : String
  capacityKg : ℤ
  tyres : ℤ
  registrationNumber : Option String
deriving DecidableEq

/-- `VehicleService.createVehicle(vehicleData)`. The pre-save hook
generates a registration number when none is given (timestamp plus random
suffix in the source, modelled with the fresh-id counter; only its
uniqueness matters), and the unique index on registrationNumber raises
the duplicate error. -/
def createVehicle (st : State) (now : ℚ) (inp : VehicleInput) :
    Except Err Vehicle × State :=
  let reg := match inp.registrationNumber with
    | some r => r
    | none => "FL-" ++ toString st.nextVehicleId
  if st.vehicles.any (fun v => v.registrationNumber == reg) then
    (.error .duplicateRegistration, st)
  else
    let vehicle : Vehicle :=
      { id := st.nextVehicleId, name := inp.name, capacityKg := inp.capacityKg,
        tyres := inp.tyres, status := .active, registrationNumber := reg,
        createdAt := now }
    (.ok vehicle,
     { st with vehicles := st.vehicles ++ [vehicle],
               nextVehicleId := st.nextVehicleId + 1 })

/-- `VehicleService.updateVehicleStatus(vehicleId, status)`. -/
def updateVehicleStatus (st : State) (vehicleId : ℕ) (status : VehicleStatus) :
    Except Err Vehicle × State :=
  match findVehicleById st vehicleId with
  | none => (.error .notFound, st)
  | some v =>
    (.ok { v with status := status },
     { st with vehicles := st.vehicles.map (fun x =>
         if x.id == vehicleId then { x with status := status } else x) })

/-- `VehicleService.deleteVehicle(vehicleId)`: the soft delete. Checks for
active bookings first (before even looking the vehicle up, as the source
does), then sets status to retired. -/
def deleteVehicle (st : State) (vehicleId : ℕ) : Except Err Vehicle × State :=
  let activeBookings := st.bookings.filter (fun b =>
    b.vehicleId == vehicleId && isActiveStatus b.status)
  if activeBookings.length > 0 then (.error .hasActiveBookings, st)
  else
    match findVehicleById st vehicleId with
    | none => (.error .notFound, st)
    | some v =>
      (.ok { v with status := .retired },
       { st with vehicles := st.vehicles.map (fun x =>
           if x.id == vehicleId then { x with status := VehicleStatus.retired } else x) })

/-- Creation-time range filter of `VehicleService.getVehicleUtilization`. -/
structure DateRange where
  startDate : Option ℚ
  endDate : Option ℚ
deriving DecidableEq

/-- Statistics object returned by `VehicleService.getVehicleUtilization`. -/
structure UtilizationStats where
  vehicleId : ℕ
  vehicleName : String
  totalBookings : ℕ
  confirmedBookings : ℕ
  completedBookings : ℕ
  cancelledBookings : ℕ
  totalHoursBooked : ℚ
  averageRideDuration : ℚ
deriving DecidableEq

/-- The `Booking.find` query of `getVehicleUtilization`: all bookings of
the vehicle, optionally restricted by creation time. -/
def utilizationFetched (st : State) (vehicleId : ℕ) (dateRange : DateRange) :
    List Booking :=
  st.bookings.filter (fun b =>
    b.vehicleId == vehicleId &&
    (match dateRange.startDate with
     | none => true
     | some s => decide (s ≤ b.createdAt)) &&
    (match dateRange.endDate with
     | none => true
     | some e => decide (b.createdAt ≤ e)))

/-- `VehicleService.getVehicleUtilization(vehicleId, dateRange)`. -/
def getVehicleUtilization (st : State) (vehicleId : ℕ) (dateRange : DateRange) :
    Except Err UtilizationStats :=
  match findVehicleById st vehicleId with
  | none => .error .notFound
  | some vehicle =>
    let bookings := utilizationFetched st vehicleId dateRange
    .ok { vehicleId := vehicle.id
          vehicleName := vehicle.name
          totalBookings := bookings.length
          confirmedBookings := (bookings.filter (fun b => b.status == .confirmed)).length
          completedBookings := (bookings.filter (fun b => b.status == .completed)).length
          cancelledBookings := (bookings.filter (fun b => b.status == .cancelled)).length
          totalHoursBooked := (bookings.map (fun b => b.estimatedRideDurationHours)).sum
          averageRideDuration :=
            if bookings.length > 0 then
              (bookings.map (fun b => b.estimatedRideDurationHours)).sum / (bookings.length : ℚ)
            else 0 }

/-- Input of `VehicleService.findAvailableVehicles` as shaped by the
controller; `none` models a JS falsy or absent query field. -/
structure SearchCriteria where
  capacityRequired : Option ℚ
  fromPincode : Option String
  toPincode : Option String
  startTime : Option DateInput
deriving DecidableEq

/-- One element of a `findAvailableVehicles` result: the vehicle
document spread together with the attached enrichment. -/
structure AvailableVehicle where
  vehicle : Vehicle
  estimatedRideDurationHours : ℚ
  routeInfo : RouteInfo
  searchFromPincode : String
  searchToPincode : String
  requestedStartTime : ℚ
  requestedEndTime : ℚ
deriving DecidableEq

/-- The per-candidate loop of `findAvailableVehicles`: runs the overlap
query for each vehicle in order, keeps the vehicles with zero overlaps,
enriched with route info. The second component counts how many overlap
queries were executed. -/
def availabilityScan (bookings : List Booking) (fromPincode toPincode : String)
    (requestedStartTime requestedEndTime estimatedRideDurationHours : ℚ) :
    List Vehicle → Except Err (List AvailableVehicle × ℕ)
  | [] => .ok ([], 0)
  | vehicle :: rest =>
    let overlapping := findOverlappingBookings bookings vehicle.id
      requestedStartTime requestedEndTime none
    if overlapping.length == 0 then
      match getRouteInfo fromPincode toPincode vehicle.capacityKg with
      | none => .error .invalidPincode
      | some routeInfo =>
        match availabilityScan bookings fromPincode toPincode requestedStartTime
            requestedEndTime estimatedRideDurationHours rest with
        | .error e => .error e
        | .ok (acc, n) =>
          .ok ({ vehicle := vehicle
                 estimatedRideDurationHours := estimatedRideDurationHours
                 routeInfo := routeInfo
                 searchFromPincode := fromPincode
                 searchToPincode := toPincode
                 requestedStartTime := requestedStartTime
                 requestedEndTime := requestedEndTime } :: acc, n + 1)
    else
      match availabilityScan bookings fromPincode toPincode requestedStartTime
          requestedEndTime estimatedRideDurationHours rest with
      | .error e => .error e
      | .ok (acc, n) => .ok (acc, n + 1)

/-- `VehicleService.findAvailableVehicles(criteria)`: validations, capacity
and status filter over the vehicle collection, short-circuit on an empty
candidate set, then the per-candidate overlap scan. The result carries the
number of overlap queries executed. The `capacityRequired == 0` branch is
the JS falsy required-fields check (`!capacityRequired`). -/
def findAvailableVehicles (st : State) (now : ℚ) (criteria : SearchCriteria) :
    Except Err (List AvailableVehicle × ℕ) :=
  match criteria.capacityRequired, criteria.fromPincode, criteria.toPincode,
        criteria.startTime with
  | some capacityRequired, some fromPincode, some toPincode, some startInput =>
    if capacityRequired == 0 then .error .missingCriteria
    else if !(isValidPincode fromPincode && isValidPincode toPincode) then
      .error .invalidPincode
    else
      match startInput with
      | .invalid => .error .invalidTimeFormat
      | .time requestedStartTime =>
        if requestedStartTime ≤ now then .error .pastStartTime
        else match calculateEstimatedDuration fromPincode toPincode with
          | none => .error .invalidPincode
          | some estimatedRideDurationHours =>
            match calculateEndTime requestedStartTime estimatedRideDurationHours with
            | none => .error .invalidDuration
            | some requestedEndTime =>
              let eligibleVehicles := st.vehicles.filter (fun v =>
                decide (capacityRequired ≤ (v.capacityKg : ℚ)) && v.status == .active)
              if eligibleVehicles.length == 0 then .ok ([], 0)
              else availabilityScan st.bookings fromPincode toPincode
                requestedStartTime requestedEndTime estimatedRideDurationHours
                eligibleVehicles
  | _, _, _, _ => .error .missingCriteria

/-- One invocation of a state-mutating operation of the system, with the
wall-clock time it observes. -/
inductive Op
  | createBooking (now : ℚ) (inp : BookingInput)
  | updateBookingStatus (now : ℚ) (bookingId : ℕ) (status : BookingStatus) (u : UpdateData)
  | cancelBooking (now : ℚ) (bookingId : ℕ) (reason : String)
  | deleteBooking (bookingId : ℕ)
  | createVehicle (now : ℚ) (inp : VehicleInput)
  | updateVehicleStatus (vehicleId : ℕ) (status : VehicleStatus)
  | deleteVehicle (vehicleId : ℕ)
deriving DecidableEq

/-- Apply one operation to the store; a failed operation leaves the store
unchanged (each service call returns the store it ends with). -/
def applyOp (st : State) : Op → State
  | .createBooking now inp => (createBooking st now inp).2
  | .updateBookingStatus now bookingId status u => (updateBookingStatus st now bookingId status u).2
  | .cancelBooking now bookingId reason => (cancelBooking st now bookingId reason).2
  | .deleteBooking bookingId => (deleteBooking st bookingId).2
  | .createVehicle now inp => (createVehicle st now inp).2
  | .updateVehicleStatus vehicleId status => (updateVehicleStatus st vehicleId status).2
  | .deleteVehicle vehicleId => (deleteVehicle st vehicleId).2

/-- Run a sequence of operations from the empty store. -/
def runOps (ops : List Op) : State :=
  ops.foldl applyOp initialState

/-- Two half-open booking intervals intersect. -/
def overlapsB (b1 b2 : Booking) : Bool :=
  decide (b1.startTime < b2.endTime) && decide (b2.startTime < b1.endTime)

/-- An unordered pair of bookings respects the no-double-booking rule:
not both active on the same vehicle with intersecting intervals. -/
def activePairOK (b1 b2 : Booking) : Bool :=
  !(b1.vehicleId == b2.vehicleId && isActiveStatus b1.status &&
    isActiveStatus b2.status && overlapsB b1 b2)

/-- The stated invariant: for each vehicle the active bookings have
pairwise disjoint half-open intervals. -/
def noActiveOverlap (bs : List Booking) : Prop :=
  bs.Pairwise (fun b1 b2 => activePairOK b1 b2 = true)

/-- States reachable by sequential operations in which no
`updateBookingStatus` call moves a stored booking from a non-active
status (completed or cancelled) back to an active one (confirmed or
in-progress). -/
inductive ReachableTame : State → Prop
  | init : ReachableTame initialState
  | stepCreateBooking (st : State) (now : ℚ) (inp : BookingInput) :
      ReachableTame st → ReachableTame (createBooking st now inp).2
  | stepUpdateBookingStatus (st : State) (now : ℚ) (bookingId : ℕ)
      (status : BookingStatus) (u : UpdateData) :
      ReachableTame st →
      (∀ b ∈ st.bookings, b.id = bookingId →
        isActiveStatus b.status = false → isActiveStatus status = false) →
      ReachableTame (updateBookingStatus st now bookingId status u).2
  | stepCancelBooking (st : State) (now : ℚ) (bookingId : ℕ) (reason : String) :
      ReachableTame st → ReachableTame (cancelBooking st now bookingId reason).2
  | stepDeleteBooking (st : State) (bookingId : ℕ) :
      ReachableTame st → ReachableTame (deleteBooking st bookingId).2
  | stepCreateVehicle (st : State) (now : ℚ) (inp : VehicleInput) :
      ReachableTame st → ReachableTame (createVehicle st now inp).2
  | stepUpdateVehicleStatus (st : State) (vehicleId : ℕ) (status : VehicleStatus) :
      ReachableTame st → ReachableTame (updateVehicleStatus st vehicleId status).2
  | stepDeleteVehicle (st : State) (vehicleId : ℕ) :
      ReachableTame st → ReachableTame (deleteVehicle st vehicleId).2

/-! ### Helper lemmas on the Route Estimator -/

/-- Decidability of the booking invariant, for concrete evaluation. -/
instance (bs : List Booking) : Decidable (noActiveOverlap bs) :=
  inferInstanceAs (Decidable (bs.Pairwise (fun b1 b2 => activePairOK b1 b2 = true)))

/-- On validated pincodes the duration is the mod-24 absolute pincode
difference, floored at one half. -/
theorem calculateEstimatedDuration_eq {p q : String}
    (hp : isValidPincode p = true) (hq : isValidPincode q = true) :
    calculateEstimatedDuration p q
      = some (max (((parsePin q - parsePin p).natAbs % 24 : ℕ) : ℚ) (1 / 2)) := by
  simp [calculateEstimatedDuration, hp, hq]

/-- Every duration the estimator returns is at least one half hour. -/
theorem duration_ge_half {p q : String} {d : ℚ}
    (h : calculateEstimatedDuration p q = some d) : 1 / 2 ≤ d := by
  unfold calculateEstimatedDuration at h
  split at h
  · simp only [Option.some.injEq] at h
    subst h
    exact le_max_right _ _
  · cases h

/-- Every duration the estimator returns is one half or an integer
between 1 and 23. -/
theorem duration_shape {p q : String} {d : ℚ}
    (h : calculateEstimatedDuration p q = some d) :
    d = 1 / 2 ∨ ∃ n : ℕ, 1 ≤ n ∧ n ≤ 23 ∧ d = (n : ℚ) := by
  unfold calculateEstimatedDuration at h
  split at h
  · simp only [Option.some.injEq] at h
    subst h
    rcases Nat.eq_zero_or_pos ((parsePin q - parsePin p).natAbs % 24) with h0 | h1
    · left
      rw [h0]
      simp only [Nat.cast_zero]
      exact max_eq_right (by norm_num)
    · right
      refine ⟨(parsePin q - parsePin p).natAbs % 24, h1, ?_, ?_⟩
      · omega
      · have hc : (1 : ℚ) ≤ (((parsePin q - parsePin p).natAbs % 24 : ℕ) : ℚ) := by
          exact_mod_cast h1
        exact max_eq_left (by linarith)
  · cases h

/-- Every duration the estimator returns is at most 23 hours. -/
theorem duration_le_23 {p q : String} {d : ℚ}
    (h : calculateEstimatedDuration p q = some d) : d ≤ 23 := by
  rcases duration_shape h with h0 | ⟨n, _, hn, he⟩
  · rw [h0]; norm_num
  · rw [he]; exact_mod_cast hn

/-! ### C5 — duration formula, symmetry, lower bound, concrete values -/

/-- C5: for valid 6-digit pincodes `p`, `q`, `estimateDuration(p, q)` equals
`max(abs(int(q) - int(p)) mod 24, 0.5)`; it is symmetric and at least 0.5;
and the three concrete values of the spec hold:
110001 to 110005 gives 4, to 110030 gives 5, to 110050 gives 1. -/
theorem estimateDuration_formula_symm_values (p q : String)
    (hp : isValidPincode p = true) (hq : isValidPincode q = true) :
    calculateEstimatedDuration p q
      = some (max (((parsePin q - parsePin p).natAbs % 24 : ℕ) : ℚ) (1 / 2)) ∧
    calculateEstimatedDuration p q = calculateEstimatedDuration q p ∧
    (∀ r : ℚ, calculateEstimatedDuration p q = some r → 1 / 2 ≤ r) ∧
    calculateEstimatedDuration "110001" "110005" = some 4 ∧
    calculateEstimatedDuration "110001" "110030" = some 5 ∧
    calculateEstimatedDuration "110001" "110050" = some 1 := by
  refine ⟨calculateEstimatedDuration_eq hp hq, ?_, ?_, ?_, ?_, ?_⟩
  · have hsym : (parsePin q - parsePin p).natAbs = (parsePin p - parsePin q).natAbs := by
      omega
    rw [calculateEstimatedDuration_eq hp hq, calculateEstimatedDuration_eq hq hp, hsym]
  · intro r hr
    exact duration_ge_half hr
  · with_unfolding_all decide
  · with_unfolding_all decide
  · with_unfolding_all decide

/-- C5 witness: the theorem applied at the concrete pincode pair
110001, 110005. -/
theorem estimateDuration_formula_symm_values_witness :
    isValidPincode "110001" = true ∧ isValidPincode "110005" = true ∧
    (calculateEstimatedDuration "110001" "110005"
       = some (max (((parsePin "110005" - parsePin "110001").natAbs % 24 : ℕ) : ℚ) (1 / 2)) ∧
     calculateEstimatedDuration "110001" "110005" = calculateEstimatedDuration "110005" "110001" ∧
     (∀ r : ℚ, calculateEstimatedDuration "110001" "110005" = some r → 1 / 2 ≤ r) ∧
     calculateEstimatedDuration "110001" "110005" = some 4 ∧
     calculateEstimatedDuration "110001" "110030" = some 5 ∧
     calculateEstimatedDuration "110001" "110050" = some 1) :=
  ⟨by decide, by decide,
   estimateDuration_formula_symm_values "110001" "110005" (by decide) (by decide)⟩

/-! ### C6 — pincode validation and JS type coercion -/

/-- C6 counterexample: the claim says every input of numeric type is
rejected, but the regex test coerces its argument to a string, so the
number 110001 (a non-string value) is accepted. -/
theorem isValidPincode_numeric_counterexample :
    isValidPincodeJS (JSValue.num 110001) = true ∧
    isStringValue (JSValue.num 110001) = false := by
  exact ⟨by with_unfolding_all decide, by with_unfolding_all decide⟩

/-- C6 (amended): `isValidPincode(code)` returns true iff the JS string
coercion of `code` consists of exactly 6 ASCII digits; hence it accepts
every 6-digit string including 000000 and 999999 and also accepts a
numeric input whose decimal representation has 6 digits, while rejecting
5-digit, 7-digit, alphanumeric, null, and empty inputs. -/
theorem isValidPincodeJS_iff (v : JSValue) :
    (isValidPincodeJS v = true ↔
      ((jsToString v).length = 6 ∧ ∀ c ∈ (jsToString v).data, c.isDigit = true)) ∧
    isValidPincodeJS (JSValue.str "000000") = true ∧
    isValidPincodeJS (JSValue.str "999999") = true ∧
    isValidPincodeJS (JSValue.num 110001) = true ∧
    isValidPincodeJS (JSValue.str "11001") = false ∧
    isValidPincodeJS (JSValue.str "1100011") = false ∧
    isValidPincodeJS (JSValue.str "11000a") = false ∧
    isValidPincodeJS JSValue.nullV = false ∧
    isValidPincodeJS JSValue.undef = false ∧
    isValidPincodeJS (JSValue.str "") = false := by
  refine ⟨?_, ?_⟩
  · simp [isValidPincodeJS, isValidPincode, List.all_eq_true]
  · exact ⟨by with_unfolding_all decide, by with_unfolding_all decide,
      by with_unfolding_all decide, by with_unfolding_all decide,
      by with_unfolding_all decide, by with_unfolding_all decide,
      by with_unfolding_all decide, by with_unfolding_all decide,
      by with_unfolding_all decide⟩

/-- C6 witness: the amended characterisation instantiated at the
six-digit string 110001. -/
theorem isValidPincodeJS_iff_witness :
    (isValidPincodeJS (JSValue.str "110001") = true ↔
      ((jsToString (JSValue.str "110001")).length = 6 ∧
       ∀ c ∈ (jsToString (JSValue.str "110001")).data, c.isDigit = true)) ∧
    isValidPincodeJS (JSValue.str "000000") = true ∧
    isValidPincodeJS (JSValue.str "999999") = true ∧
    isValidPincodeJS (JSValue.num 110001) = true ∧
    isValidPincodeJS (JSValue.str "11001") = false ∧
    isValidPincodeJS (JSValue.str "1100011") = false ∧
    isValidPincodeJS (JSValue.str "11000a") = false ∧
    isValidPincodeJS JSValue.nullV = false ∧
    isValidPincodeJS JSValue.undef = false ∧
    isValidPincodeJS (JSValue.str "") = false :=
  isValidPincodeJS_iff (JSValue.str "110001")

/-! ### C2 — the overlap query -/

/-- Unfolding of the overlap-query document filter. -/
theorem matchesOverlapQuery_eq_true {vid : ℕ} {s e : ℚ} {excl : Option ℕ}
    {b : Booking} :
    matchesOverlapQuery vid s e excl b = true ↔
      (b.vehicleId = vid ∧
       (b.status = BookingStatus.confirmed ∨ b.status = BookingStatus.inProgress) ∧
       b.startTime < e ∧ b.endTime > s ∧ excl ≠ some b.id) := by
  cases excl with
  | none =>
    simp only [matchesOverlapQuery, isActiveStatus, Bool.and_eq_true, beq_iff_eq,
      Bool.or_eq_true, decide_eq_true_eq, ne_eq, and_assoc]
    tauto
  | some x =>
    simp only [matchesOverlapQuery, isActiveStatus, Bool.and_eq_true, beq_iff_eq,
      Bool.or_eq_true, decide_eq_true_eq, bne_iff_ne, ne_eq, Option.some.injEq, and_assoc]
    constructor
    · rintro ⟨h1, h2, h3, h4, h5⟩
      exact ⟨h1, h2, h3, h4, fun hx => h5 hx.symm⟩
    · rintro ⟨h1, h2, h3, h4, h5⟩
      exact ⟨h1, h2, h3, h4, fun hx => h5 hx.symm⟩

/-- C2: the overlap query returns exactly the stored bookings of the given
vehicle with status confirmed or in-progress satisfying
`startTime < newEnd` and `endTime > newStart`, excluding the booking named
by `excludeBookingId` when supplied; a booking that merely touches the
window at an endpoint is not returned. -/
theorem findOverlappingBookings_spec (B : List Booking) (vid : ℕ) (s e : ℚ)
    (excl : Option ℕ) (b : Booking) (_hse : s < e) :
    (b ∈ findOverlappingBookings B vid s e excl ↔
      (b ∈ B ∧ b.vehicleId = vid ∧
       (b.status = BookingStatus.confirmed ∨ b.status = BookingStatus.inProgress) ∧
       b.startTime < e ∧ b.endTime > s ∧ excl ≠ some b.id)) ∧
    (b.endTime = s → b ∉ findOverlappingBookings B vid s e excl) ∧
    (b.startTime = e → b ∉ findOverlappingBookings B vid s e excl) ∧
    (excl = some b.id → b ∉ findOverlappingBookings B vid s e excl) := by
  have hmem : b ∈ findOverlappingBookings B vid s e excl ↔
      (b ∈ B ∧ b.vehicleId = vid ∧
       (b.status = BookingStatus.confirmed ∨ b.status = BookingStatus.inProgress) ∧
       b.startTime < e ∧ b.endTime > s ∧ excl ≠ some b.id) := by
    rw [findOverlappingBookings, List.mem_filter, matchesOverlapQuery_eq_true]
  refine ⟨hmem, ?_, ?_, ?_⟩
  · intro hend hm
    have := (hmem.mp hm).2.2.2.2.1
    rw [hend] at this
    exact lt_irrefl s this
  · intro hstart hm
    have := (hmem.mp hm).2.2.2.1
    rw [hstart] at this
    exact lt_irrefl e this
  · intro hexcl hm
    exact (hmem.mp hm).2.2.2.2.2 hexcl

/-- A sample confirmed booking used to instantiate witnesses. -/
def sampleBooking : Booking :=
  { id := 0, vehicleId := 0, customerId := "cust-1", fromPincode := "110001",
    toPincode := "110002", startTime := 0, endTime := 3600000,
    estimatedRideDurationHours := 1, status := .confirmed,
    actualStartTime := none, actualEndTime := none, notes := none, createdAt := 0 }

/-- C2 witness: the characterisation applied to a one-booking store and a
concrete window. -/
theorem findOverlappingBookings_spec_witness :
    (0 : ℚ) < 3600000 ∧
    ((sampleBooking ∈ findOverlappingBookings [sampleBooking] 0 0 3600000 none ↔
      (sampleBooking ∈ [sampleBooking] ∧ sampleBooking.vehicleId = 0 ∧
       (sampleBooking.status = BookingStatus.confirmed ∨
        sampleBooking.status = BookingStatus.inProgress) ∧
       sampleBooking.startTime < 3600000 ∧ sampleBooking.endTime > 0 ∧
       (none : Option ℕ) ≠ some sampleBooking.id)) ∧
     (sampleBooking.endTime = 0 →
       sampleBooking ∉ findOverlappingBookings [sampleBooking] 0 0 3600000 none) ∧
     (sampleBooking.startTime = 3600000 →
       sampleBooking ∉ findOverlappingBookings [sampleBooking] 0 0 3600000 none) ∧
     ((none : Option ℕ) = some sampleBooking.id →
       sampleBooking ∉ findOverlappingBookings [sampleBooking] 0 0 3600000 none)) :=
  ⟨by norm_num,
   findOverlappingBookings_spec [sampleBooking] 0 0 3600000 none sampleBooking (by norm_num)⟩

/-! ### Lemmas on createBooking -/

/-- A successful end-time computation returns start plus duration in ms. -/
theorem calculateEndTime_eq {t d e : ℚ} (h : calculateEndTime t d = some e) :
    e = t + d * 3600000 := by
  unfold calculateEndTime at h
  split at h
  · cases h
  · simp only [Option.some.injEq] at h
    exact h.symm

/-- The end-time computation succeeds on every positive duration. -/
theorem calculateEndTime_pos {t d : ℚ} (hd : 0 < d) :
    calculateEndTime t d = some (t + d * 3600000) := by
  unfold calculateEndTime
  rw [if_neg (not_le.mpr hd)]

/-- The booking document `createBooking` persists on success. -/
def newBooking (st : State) (now : ℚ) (vid : ℕ) (cid f tp : String) (t d : ℚ) : Booking :=
  { id := st.nextBookingId, vehicleId := vid, customerId := cid,
    fromPincode := f, toPincode := tp, startTime := t,
    endTime := t + d * 3600000, estimatedRideDurationHours := d,
    status := BookingStatus.confirmed, actualStartTime := none,
    actualEndTime := none, notes := none, createdAt := now }

/-- Complete case analysis of `createBooking`: either it fails and returns
the store unchanged, or it succeeds and appends exactly one confirmed
booking whose fields were computed by the estimator and which passed the
overlap check. -/
theorem createBooking_cases (st : State) (now : ℚ) (inp : BookingInput) :
    ((createBooking st now inp).1.isOk = false ∧ (createBooking st now inp).2 = st) ∨
    (∃ b : Booking,
      createBooking st now inp =
        (Except.ok b,
         { st with bookings := st.bookings ++ [b], nextBookingId := st.nextBookingId + 1 }) ∧
      b.status = BookingStatus.confirmed ∧
      b.id = st.nextBookingId ∧
      calculateEstimatedDuration b.fromPincode b.toPincode = some b.estimatedRideDurationHours ∧
      b.endTime = b.startTime + b.estimatedRideDurationHours * 3600000 ∧
      now < b.startTime ∧
      findOverlappingBookings st.bookings b.vehicleId b.startTime b.endTime none = []) := by
  unfold createBooking
  repeat' split
  all_goals try (left; exact ⟨rfl, rfl⟩)
  right
  refine ⟨_, rfl, rfl, rfl, ?_, ?_, ?_, ?_⟩
  · assumption
  · exact calculateEndTime_eq (by assumption)
  · exact not_le.mp (by assumption)
  · exact List.length_eq_zero.mp (Nat.eq_zero_of_not_pos (by assumption))

/-- After all validations pass, `createBooking` reduces to the overlap
check followed by the persist step. -/
theorem createBooking_reduced (st : State) (now : ℚ) (inp : BookingInput)
    (vid : ℕ) (f tp cid : String) (t : ℚ) (v : Vehicle) (d : ℚ)
    (hvid : inp.vehicleId = some vid) (hf : inp.fromPincode = some f)
    (htp : inp.toPincode = some tp) (hst : inp.startTime = some (DateInput.time t))
    (hcid : inp.customerId = some cid)
    (hveh : findVehicleById st vid = some v) (hact : v.status = VehicleStatus.active)
    (hfv : isValidPincode f = true) (htv : isValidPincode tp = true)
    (hnow : now < t)
    (hd : calculateEstimatedDuration f tp = some d) :
    createBooking st now inp =
      (if 0 < (findOverlappingBookings st.bookings vid t (t + d * 3600000) none).length
       then (Except.error Err.slotUnavailable, st)
       else (Except.ok (newBooking st now vid cid f tp t d),
             { st with bookings := st.bookings ++ [newBooking st now vid cid f tp t d],
                       nextBookingId := st.nextBookingId + 1 })) := by
  have hdpos : 0 < d := lt_of_lt_of_le (by norm_num) (duration_ge_half hd)
  have hne : ¬ (t + d * 3600000 ≤ t) := by
    have : 0 < d * 3600000 := by positivity
    linarith
  unfold createBooking newBooking
  simp only [hvid, hf, htp, hst, hcid, hveh, hact, hfv, htv, hd,
    calculateEndTime_pos hdpos, bne_self_eq_false, Bool.false_eq_true, if_false,
    Bool.and_self, Bool.not_true, if_neg (not_le.mpr hnow), if_neg hne]

/-! ### C3 — createBooking: SlotUnavailable, all-or-nothing, success shape -/

/-- C3: once all input validations pass, `createBooking` fails with
SlotUnavailable exactly when the overlap query over the computed window is
non-empty; on every failure path the store is unchanged; on success
exactly one booking is appended, confirmed, with the computed end time and
duration. -/
theorem createBooking_spec (st : State) (now : ℚ) (inp : BookingInput)
    (vid : ℕ) (f tp cid : String) (t : ℚ) (v : Vehicle) (d : ℚ)
    (hvid : inp.vehicleId = some vid) (hf : inp.fromPincode = some f)
    (htp : inp.toPincode = some tp) (hst : inp.startTime = some (DateInput.time t))
    (hcid : inp.customerId = some cid)
    (hveh : findVehicleById st vid = some v) (hact : v.status = VehicleStatus.active)
    (hfv : isValidPincode f = true) (htv : isValidPincode tp = true)
    (hnow : now < t)
    (hd : calculateEstimatedDuration f tp = some d) :
    (createBooking st now inp = (Except.error Err.slotUnavailable, st) ↔
      findOverlappingBookings st.bookings vid t (t + d * 3600000) none ≠ []) ∧
    (∀ (st2 : State) (now2 : ℚ) (inp2 : BookingInput),
      (createBooking st2 now2 inp2).1.isOk = false → (createBooking st2 now2 inp2).2 = st2) ∧
    (findOverlappingBookings st.bookings vid t (t + d * 3600000) none = [] →
      createBooking st now inp =
        (Except.ok (newBooking st now vid cid f tp t d),
         { st with bookings := st.bookings ++ [newBooking st now vid cid f tp t d],
                   nextBookingId := st.nextBookingId + 1 })) ∧
    (newBooking st now vid cid f tp t d).status = BookingStatus.confirmed ∧
    (newBooking st now vid cid f tp t d).endTime = t + d * 3600000 ∧
    (newBooking st now vid cid f tp t d).estimatedRideDurationHours = d := by
  have hred := createBooking_reduced st now inp vid f tp cid t v d
    hvid hf htp hst hcid hveh hact hfv htv hnow hd
  refine ⟨⟨?_, ?_⟩, ?_, ?_, rfl, rfl, rfl⟩
  · intro he
    intro hnil
    rw [hred, if_neg (by rw [hnil]; simp)] at he
    simp at he
  · intro hne
    rw [hred, if_pos (List.length_pos.mpr hne)]
  · intro st2 now2 inp2 hfail
    rcases createBooking_cases st2 now2 inp2 with ⟨_, h2⟩ | ⟨b, heq, _⟩
    · exact h2
    · rw [heq] at hfail
      exact Bool.noConfusion hfail
  · intro hnil
    rw [hred, if_neg (by rw [hnil]; simp)]

/-- A sample active vehicle used to instantiate witnesses. -/
def sampleVehicle : Vehicle :=
  { id := 0, name := "Truck", capacityKg := 1000, tyres := 4,
    status := .active, registrationNumber := "REG-1", createdAt := 0 }

/-- A store holding the sample vehicle and no bookings. -/
def sampleState : State :=
  { vehicles := [sampleVehicle], bookings := [], nextVehicleId := 1, nextBookingId := 0 }

/-- A fully valid booking request against the sample store at time 0. -/
def sampleInput : BookingInput :=
  { vehicleId := some 0, fromPincode := some "110001", toPincode := some "110002",
    startTime := some (.time 36000000), customerId := some "cust-1" }

/-- C3 witness: the specification applied to the sample store and request. -/
theorem createBooking_spec_witness :
    (sampleInput.vehicleId = some 0 ∧
     sampleInput.fromPincode = some "110001" ∧
     sampleInput.toPincode = some "110002" ∧
     sampleInput.startTime = some (DateInput.time 36000000) ∧
     sampleInput.customerId = some "cust-1" ∧
     findVehicleById sampleState 0 = some sampleVehicle ∧
     sampleVehicle.status = VehicleStatus.active ∧
     isValidPincode "110001" = true ∧
     isValidPincode "110002" = true ∧
     (0 : ℚ) < 36000000 ∧
     calculateEstimatedDuration "110001" "110002" = some 1) ∧
    ((createBooking sampleState 0 sampleInput = (Except.error Err.slotUnavailable, sampleState) ↔
       findOverlappingBookings sampleState.bookings 0 36000000 (36000000 + 1 * 3600000) none ≠ []) ∧
     (∀ (st2 : State) (now2 : ℚ) (inp2 : BookingInput),
       (createBooking st2 now2 inp2).1.isOk = false → (createBooking st2 now2 inp2).2 = st2) ∧
     (findOverlappingBookings sampleState.bookings 0 36000000 (36000000 + 1 * 3600000) none = [] →
       createBooking sampleState 0 sampleInput =
         (Except.ok (newBooking sampleState 0 0 "cust-1" "110001" "110002" 36000000 1),
          { sampleState with
              bookings := sampleState.bookings ++
                [newBooking sampleState 0 0 "cust-1" "110001" "110002" 36000000 1],
              nextBookingId := sampleState.nextBookingId + 1 })) ∧
     (newBooking sampleState 0 0 "cust-1" "110001" "110002" 36000000 1).status
        = BookingStatus.confirmed ∧
     (newBooking sampleState 0 0 "cust-1" "110001" "110002" 36000000 1).endTime
        = 36000000 + 1 * 3600000 ∧
     (newBooking sampleState 0 0 "cust-1" "110001" "110002" 36000000 1).estimatedRideDurationHours
        = 1) :=
  ⟨⟨rfl, rfl, rfl, rfl, rfl, rfl, rfl, by decide, by decide, by norm_num,
    by with_unfolding_all decide⟩,
   createBooking_spec sampleState 0 sampleInput 0 "110001" "110002" "cust-1" 36000000
     sampleVehicle 1 rfl rfl rfl rfl rfl rfl rfl (by decide) (by decide) (by norm_num)
     (by with_unfolding_all decide)⟩

/-! ### C10 — duration bounds and booking window length -/

/-- C10: every estimator result is exactly one half or an integer between
1 and 23, hence at most 23; and every booking `createBooking` persists
spans at most 23 hours. -/
theorem estimateDuration_bounds (p q : String) (d : ℚ)
    (h : calculateEstimatedDuration p q = some d) :
    (d = 1 / 2 ∨ ∃ n : ℕ, 1 ≤ n ∧ n ≤ 23 ∧ d = (n : ℚ)) ∧ d ≤ 23 ∧
    (∀ (st : State) (now : ℚ) (inp : BookingInput) (b : Booking) (st2 : State),
      createBooking st now inp = (Except.ok b, st2) →
      b.endTime - b.startTime ≤ 23 * 3600000) := by
  refine ⟨duration_shape h, duration_le_23 h, ?_⟩
  intro st now inp b st2 hok
  rcases createBooking_cases st now inp with ⟨hfail, _⟩ | ⟨b2, heq, _, _, hdur, hend, _, _⟩
  · rw [hok] at hfail
    exact Bool.noConfusion hfail
  · rw [heq] at hok
    have hb : b2 = b := by
      have := congrArg Prod.fst hok
      simpa using this
    subst hb
    have hle := duration_le_23 hdur
    rw [hend]
    have := mul_le_mul_of_nonneg_right hle (by norm_num : (0:ℚ) ≤ 3600000)
    linarith

/-- C10 witness: the bounds applied at the concrete pincode pair
110001, 110002 whose estimated duration is 1 hour. -/
theorem estimateDuration_bounds_witness :
    calculateEstimatedDuration "110001" "110002" = some 1 ∧
    (((1 : ℚ) = 1 / 2 ∨ ∃ n : ℕ, 1 ≤ n ∧ n ≤ 23 ∧ (1 : ℚ) = (n : ℚ)) ∧ (1 : ℚ) ≤ 23 ∧
     (∀ (st : State) (now : ℚ) (inp : BookingInput) (b : Booking) (st2 : State),
       createBooking st now inp = (Except.ok b, st2) →
       b.endTime - b.startTime ≤ 23 * 3600000)) :=
  ⟨by with_unfolding_all decide,
   estimateDuration_bounds "110001" "110002" 1 (by with_unfolding_all decide)⟩

/-! ### C7 — updateBookingStatus timestamps and frame -/

/-- A booking already in progress with its actual start time recorded. -/
def startedBooking : Booking :=
  { sampleBooking with id := 5, status := .inProgress, actualStartTime := some 100 }

/-- A completed booking with its actual end time recorded. -/
def finishedBooking : Booking :=
  { sampleBooking with id := 6, status := .completed, actualEndTime := some 100 }

/-- A store holding the two timestamped bookings. -/
def timestampState : State :=
  { vehicles := [], bookings := [startedBooking, finishedBooking],
    nextVehicleId := 0, nextBookingId := 7 }

/-- C7 counterexample: the claim says a previously set actualStartTime /
actualEndTime is left unchanged by a repeated transition, but the service
only checks the update document, never the stored booking, so a repeated
transition to in-progress (resp. completed) at time 200 overwrites the
stored timestamp 100 with 200. -/
theorem updateBookingStatus_overwrite_counterexample :
    startedBooking.actualStartTime = some 100 ∧
    finishedBooking.actualEndTime = some 100 ∧
    ((updateBookingStatus timestampState 200 5 BookingStatus.inProgress emptyUpdate).2.bookings.map
        (fun b => b.actualStartTime)) = [some 200, none] ∧
    ((updateBookingStatus timestampState 200 6 BookingStatus.completed emptyUpdate).2.bookings.map
        (fun b => b.actualEndTime)) = [none, some 200] := by
  refine ⟨rfl, rfl, ?_, ?_⟩ <;> with_unfolding_all decide

/-- C7 (amended): on an existing booking, `updateStatus` sets
actualStartTime to now on a transition to in-progress whenever the caller
update carries no actualStartTime (overwriting any stored value), and
similarly actualEndTime for completed; it leaves the timestamps alone on
other transitions; and every field other than status, the merged extra
fields, and these timestamps is unchanged. -/
theorem updateBookingStatus_spec (st : State) (now : ℚ) (bookingId : ℕ)
    (status : BookingStatus) (u : UpdateData) (b : Booking)
    (hfind : findBookingById st bookingId = some b) :
    (updateBookingStatus st now bookingId status u).1
      = Except.ok (mergeUpdate b status (effectiveUpdate now status u)) ∧
    (updateBookingStatus st now bookingId status u).2
      = { st with bookings := st.bookings.map (fun x =>
            if x.id == bookingId then mergeUpdate x status (effectiveUpdate now status u) else x) } ∧
    (status = BookingStatus.inProgress → u.actualStartTime = none →
      (mergeUpdate b status (effectiveUpdate now status u)).actualStartTime = some now) ∧
    (status = BookingStatus.completed → u.actualEndTime = none →
      (mergeUpdate b status (effectiveUpdate now status u)).actualEndTime = some now) ∧
    (status ≠ BookingStatus.inProgress → u.actualStartTime = none →
      (mergeUpdate b status (effectiveUpdate now status u)).actualStartTime = b.actualStartTime) ∧
    (status ≠ BookingStatus.completed → u.actualEndTime = none →
      (mergeUpdate b status (effectiveUpdate now status u)).actualEndTime = b.actualEndTime) ∧
    (mergeUpdate b status (effectiveUpdate now status u)).status = status ∧
    (mergeUpdate b status (effectiveUpdate now status u)).id = b.id ∧
    (mergeUpdate b status (effectiveUpdate now status u)).vehicleId = b.vehicleId ∧
    (mergeUpdate b status (effectiveUpdate now status u)).customerId = b.customerId ∧
    (mergeUpdate b status (effectiveUpdate now status u)).fromPincode = b.fromPincode ∧
    (mergeUpdate b status (effectiveUpdate now status u)).toPincode = b.toPincode ∧
    (mergeUpdate b status (effectiveUpdate now status u)).startTime = b.startTime ∧
    (mergeUpdate b status (effectiveUpdate now status u)).endTime = b.endTime ∧
    (mergeUpdate b status (effectiveUpdate now status u)).estimatedRideDurationHours
      = b.estimatedRideDurationHours ∧
    (mergeUpdate b status (effectiveUpdate now status u)).createdAt = b.createdAt ∧
    (u.notes = none → (mergeUpdate b status (effectiveUpdate now status u)).notes = b.notes) ∧
    (∀ n, u.notes = some n → (mergeUpdate b status (effectiveUpdate now status u)).notes = some n) := by
  obtain ⟨usa, uea, un⟩ := u
  refine ⟨?_, ?_, ?_, ?_, ?_, ?_, ?_, ?_, ?_, ?_, ?_, ?_, ?_, ?_, ?_, ?_, ?_, ?_⟩ <;>
    cases status <;> cases usa <;> cases uea <;> cases un <;>
      simp_all [updateBookingStatus, effectiveUpdate, mergeUpdate]

/-- C7 witness: the amended specification applied to the stored
in-progress booking. -/
theorem updateBookingStatus_spec_witness :
    findBookingById timestampState 5 = some startedBooking ∧
    (updateBookingStatus timestampState 200 5 BookingStatus.inProgress emptyUpdate).1
      = Except.ok (mergeUpdate startedBooking BookingStatus.inProgress
          (effectiveUpdate 200 BookingStatus.inProgress emptyUpdate)) :=
  ⟨rfl, (updateBookingStatus_spec timestampState 200 5 BookingStatus.inProgress
          emptyUpdate startedBooking rfl).1⟩

/-! ### C8 — retiring a vehicle -/

/-- The filter of the retire check is non-empty exactly when some booking
of the vehicle is active. -/
theorem hasActive_iff (st : State) (vid : ℕ) :
    (st.bookings.filter (fun b => b.vehicleId == vid && isActiveStatus b.status)) ≠ [] ↔
      ∃ b ∈ st.bookings, b.vehicleId = vid ∧
        (b.status = BookingStatus.confirmed ∨ b.status = BookingStatus.inProgress) := by
  rw [ne_eq, List.filter_eq_nil_iff]
  push_neg
  constructor
  · rintro ⟨b, hb, hp⟩
    refine ⟨b, hb, ?_⟩
    simpa [isActiveStatus] using hp
  · rintro ⟨b, hb, hp⟩
    refine ⟨b, hb, ?_⟩
    simpa [isActiveStatus] using hp

/-- C8: the vehicle delete operation fails with HasActiveBookings iff some
booking referencing the vehicle is confirmed or in-progress; otherwise,
when the vehicle exists, it is returned with status retired and only its
status is rewritten in the store; and in every case the set of stored
vehicle ids is unchanged (soft delete: the record is never removed). -/
theorem deleteVehicle_spec (st : State) (vid : ℕ) :
    ((deleteVehicle st vid).1 = Except.error Err.hasActiveBookings ↔
      ∃ b ∈ st.bookings, b.vehicleId = vid ∧
        (b.status = BookingStatus.confirmed ∨ b.status = BookingStatus.inProgress)) ∧
    (∀ v, findVehicleById st vid = some v →
      (¬ ∃ b ∈ st.bookings, b.vehicleId = vid ∧
          (b.status = BookingStatus.confirmed ∨ b.status = BookingStatus.inProgress)) →
      deleteVehicle st vid =
        (Except.ok { v with status := VehicleStatus.retired },
         { st with vehicles := st.vehicles.map (fun x =>
             if x.id == vid then { x with status := VehicleStatus.retired } else x) })) ∧
    ((deleteVehicle st vid).2.vehicles.map (fun v => v.id) = st.vehicles.map (fun v => v.id)) := by
  have hids : ∀ (l : List Vehicle),
      (l.map (fun x => if x.id == vid then { x with status := VehicleStatus.retired } else x)).map
        (fun v => v.id) = l.map (fun v => v.id) := by
    intro l
    rw [List.map_map]
    apply List.map_congr_left
    intro x _
    by_cases hxe : x.id = vid <;> simp [hxe]
  by_cases hnil : (st.bookings.filter (fun b => b.vehicleId == vid && isActiveStatus b.status)) = []
  · have hnoex : ¬ ∃ b ∈ st.bookings, b.vehicleId = vid ∧
        (b.status = BookingStatus.confirmed ∨ b.status = BookingStatus.inProgress) :=
      fun hex => (hasActive_iff st vid).mpr hex hnil
    unfold deleteVehicle
    simp only [hnil, List.length_nil, gt_iff_lt, lt_self_iff_false, if_false]
    cases hfind : findVehicleById st vid with
    | none =>
      simp only [hfind]
      refine ⟨?_, ?_, ?_⟩
      · constructor
        · intro h
          simp at h
        · intro hex
          exact absurd hex hnoex
      · intro v hv
        cases hv
      · trivial
    | some v =>
      simp only [hfind]
      refine ⟨?_, ?_, ?_⟩
      · constructor
        · intro h
          simp at h
        · intro hex
          exact absurd hex hnoex
      · intro v2 hv2 _
        injection hv2 with h
        subst h
        rfl
      · exact hids _
  · have hpos : 0 < (st.bookings.filter (fun b => b.vehicleId == vid && isActiveStatus b.status)).length :=
      List.length_pos.mpr hnil
    have hex := (hasActive_iff st vid).mp hnil
    unfold deleteVehicle
    simp only [gt_iff_lt, if_pos hpos]
    refine ⟨?_, ?_, ?_⟩
    · constructor
      · intro _
        exact hex
      · intro _
        trivial
    · intro v _ hno
      exact absurd hex hno
    · trivial

/-- A store holding the sample vehicle and one confirmed booking on it. -/
def bookedState : State :=
  { vehicles := [sampleVehicle], bookings := [sampleBooking],
    nextVehicleId := 1, nextBookingId := 1 }

/-- C8 witness: the retire specification applied to the booked store;
in particular the vehicle ids survive the call. -/
theorem deleteVehicle_spec_witness :
    (deleteVehicle bookedState 0).2.vehicles.map (fun v => v.id)
      = bookedState.vehicles.map (fun v => v.id) :=
  (deleteVehicle_spec bookedState 0).2.2

/-! ### C9 — utilization statistics -/

/-- Splitting a sum of mapped values along a Boolean filter. -/
theorem sum_split_filter (l : List Booking) (p : Booking → Bool) (f : Booking → ℚ) :
    ((l.filter p).map f).sum + ((l.filter (fun x => !(p x))).map f).sum = (l.map f).sum := by
  induction l with
  | nil => simp
  | cons x xs ih =>
    cases hp : p x <;> simp [hp, ← ih] <;> ring

/-- C9: for an existing vehicle and any creation-time range, the
statistics count all fetched bookings, total the estimated hours over the
non-cancelled and the cancelled fetched bookings alike, and average that
total over the fetched count (0 when none were fetched). -/
theorem getVehicleUtilization_spec (st : State) (vid : ℕ) (dr : DateRange)
    (v : Vehicle) (s : UtilizationStats)
    (hfind : findVehicleById st vid = some v)
    (heq : getVehicleUtilization st vid dr = Except.ok s) :
    s.totalBookings = (utilizationFetched st vid dr).length ∧
    s.totalHoursBooked =
      (((utilizationFetched st vid dr).filter
          (fun b => !(b.status == BookingStatus.cancelled))).map
        (fun b => b.estimatedRideDurationHours)).sum +
      (((utilizationFetched st vid dr).filter
          (fun b => b.status == BookingStatus.cancelled)).map
        (fun b => b.estimatedRideDurationHours)).sum ∧
    s.averageRideDuration =
      (if (utilizationFetched st vid dr).length = 0 then 0
       else s.totalHoursBooked / ((utilizationFetched st vid dr).length : ℚ)) := by
  unfold getVehicleUtilization at heq
  rw [hfind] at heq
  injection heq with heq
  subst heq
  refine ⟨rfl, ?_, ?_⟩
  · have := sum_split_filter (utilizationFetched st vid dr)
      (fun b => !(b.status == BookingStatus.cancelled))
      (fun b => b.estimatedRideDurationHours)
    simp only [Bool.not_not] at this
    simp only []
    rw [← this]
  · rcases Nat.eq_zero_or_pos (utilizationFetched st vid dr).length with h0 | h1
    · simp [h0]
    · simp [Nat.pos_iff_ne_zero.mp h1, h1]

/-- The statistics of the booked store: one confirmed one-hour booking. -/
def sampleStats : UtilizationStats :=
  { vehicleId := 0, vehicleName := "Truck", totalBookings := 1,
    confirmedBookings := 1, completedBookings := 0, cancelledBookings := 0,
    totalHoursBooked := 1, averageRideDuration := 1 }

/-- C9 witness: the statistics specification applied to the booked store
with no date range. -/
theorem getVehicleUtilization_spec_witness :
    findVehicleById bookedState 0 = some sampleVehicle ∧
    getVehicleUtilization bookedState 0 ⟨none, none⟩ = Except.ok sampleStats ∧
    (sampleStats.totalBookings = (utilizationFetched bookedState 0 ⟨none, none⟩).length ∧
     sampleStats.totalHoursBooked =
       (((utilizationFetched bookedState 0 ⟨none, none⟩).filter
           (fun b => !(b.status == BookingStatus.cancelled))).map
         (fun b => b.estimatedRideDurationHours)).sum +
       (((utilizationFetched bookedState 0 ⟨none, none⟩).filter
           (fun b => b.status == BookingStatus.cancelled)).map
         (fun b => b.estimatedRideDurationHours)).sum ∧
     sampleStats.averageRideDuration =
       (if (utilizationFetched bookedState 0 ⟨none, none⟩).length = 0 then 0
        else sampleStats.totalHoursBooked /
          ((utilizationFetched bookedState 0 ⟨none, none⟩).length : ℚ))) :=
  ⟨rfl, by with_unfolding_all decide,
   getVehicleUtilization_spec bookedState 0 ⟨none, none⟩ sampleVehicle sampleStats rfl
     (by with_unfolding_all decide)⟩

/-! ### C4 — the availability search -/

/-- With valid pincodes, `getRouteInfo` succeeds and returns the bundle
computed from the estimated duration. -/
theorem getRouteInfo_some {f tp : String} {d : ℚ} (cap : ℤ)
    (hd : calculateEstimatedDuration f tp = some d) :
    getRouteInfo f tp cap = some
      { fromPincode := f, toPincode := tp, estimatedDurationHours := d,
        estimatedDistanceKm := round (d * 50),
        estimatedCost := round ((500 : ℚ) + ((round (d * 50) : ℤ) : ℚ) * 10 * max 1 ((cap : ℚ) / 1000)),
        route := f ++ " → " ++ tp } := by
  unfold getRouteInfo calculateEstimatedDistance
  rw [hd]

/-- The enriched record scan produces for an available vehicle. -/
def enrichedVehicle (f tp : String) (s e d : ℚ) (v : Vehicle) : AvailableVehicle :=
  { vehicle := v, estimatedRideDurationHours := d,
    routeInfo :=
      { fromPincode := f, toPincode := tp, estimatedDurationHours := d,
        estimatedDistanceKm := round (d * 50),
        estimatedCost := round ((500 : ℚ) + ((round (d * 50) : ℤ) : ℚ) * 10 * max 1 ((v.capacityKg : ℚ) / 1000)),
        route := f ++ " → " ++ tp },
    searchFromPincode := f, searchToPincode := tp,
    requestedStartTime := s, requestedEndTime := e }

/-- The per-candidate loop keeps exactly the vehicles with no overlapping
bookings, in candidate order, enriched, and runs one overlap query per
candidate. -/
theorem availabilityScan_spec (bookings : List Booking) (f tp : String)
    (s e d : ℚ) (hd : calculateEstimatedDuration f tp = some d) :
    ∀ l : List Vehicle,
    ∃ res n, availabilityScan bookings f tp s e d l = Except.ok (res, n) ∧
      res.map (fun av => av.vehicle)
        = l.filter (fun v => (findOverlappingBookings bookings v.id s e none).length == 0) ∧
      n = l.length ∧
      ∀ av ∈ res, av.estimatedRideDurationHours = d ∧
        getRouteInfo f tp av.vehicle.capacityKg = some av.routeInfo ∧
        av.searchFromPincode = f ∧ av.searchToPincode = tp ∧
        av.requestedStartTime = s ∧ av.requestedEndTime = e := by
  intro l
  induction l with
  | nil => exact ⟨[], 0, rfl, rfl, rfl, by simp⟩
  | cons v rest ih =>
    obtain ⟨res, n, hscan, hmap, hn, hall⟩ := ih
    cases hov : ((findOverlappingBookings bookings v.id s e none).length == 0) with
    | true =>
      refine ⟨enrichedVehicle f tp s e d v :: res, n + 1, ?_, ?_, ?_, ?_⟩
      · simp only [availabilityScan, hov, if_true, getRouteInfo_some v.capacityKg hd, hscan,
          enrichedVehicle]
      · simp only [List.map_cons]
        rw [@List.filter_cons_of_pos Vehicle
          (fun w => (findOverlappingBookings bookings w.id s e none).length == 0) v rest hov,
          hmap]
        rfl
      · simp [hn]
      · intro av hav
        rcases List.mem_cons.mp hav with hav1 | hav2
        · subst hav1
          refine ⟨rfl, ?_, rfl, rfl, rfl, rfl⟩
          exact getRouteInfo_some v.capacityKg hd
        · exact hall av hav2
    | false =>
      have hneg : ¬(((findOverlappingBookings bookings v.id s e none).length == 0) = true) := by
        simp [hov]
      refine ⟨res, n + 1, ?_, ?_, ?_, hall⟩
      · simp only [availabilityScan, hov, Bool.false_eq_true, if_false, hscan]
      · rw [@List.filter_cons_of_neg Vehicle
          (fun w => (findOverlappingBookings bookings w.id s e none).length == 0) v rest hneg]
        exact hmap
      · simp [hn]

/-- C4: on valid criteria the search returns exactly the active vehicles
of sufficient capacity whose overlap query over the computed window is
empty, in the candidate order, each enriched with the duration, route
info and echoed window; an empty candidate set short-circuits to the
empty list with zero overlap queries, and otherwise one overlap query
runs per candidate. -/
theorem findAvailableVehicles_spec (st : State) (now : ℚ) (crit : SearchCriteria)
    (c : ℚ) (f tp : String) (t d : ℚ)
    (hcap : crit.capacityRequired = some c) (hc : c ≠ 0)
    (hf : crit.fromPincode = some f) (htp : crit.toPincode = some tp)
    (hst : crit.startTime = some (DateInput.time t))
    (hfv : isValidPincode f = true) (htv : isValidPincode tp = true)
    (hnow : now < t)
    (hd : calculateEstimatedDuration f tp = some d) :
    ∃ res n, findAvailableVehicles st now crit = Except.ok (res, n) ∧
      res.map (fun av => av.vehicle)
        = (st.vehicles.filter (fun v =>
             decide (c ≤ (v.capacityKg : ℚ)) && v.status == VehicleStatus.active)).filter
            (fun v => (findOverlappingBookings st.bookings v.id t (t + d * 3600000) none).length == 0) ∧
      (∀ av ∈ res, av.estimatedRideDurationHours = d ∧
        getRouteInfo f tp av.vehicle.capacityKg = some av.routeInfo ∧
        av.searchFromPincode = f ∧ av.searchToPincode = tp ∧
        av.requestedStartTime = t ∧ av.requestedEndTime = t + d * 3600000) ∧
      n = (st.vehicles.filter (fun v =>
             decide (c ≤ (v.capacityKg : ℚ)) && v.status == VehicleStatus.active)).length ∧
      ((st.vehicles.filter (fun v =>
             decide (c ≤ (v.capacityKg : ℚ)) && v.status == VehicleStatus.active)) = [] →
        findAvailableVehicles st now crit = Except.ok ([], 0)) := by
  have hdpos : 0 < d := lt_of_lt_of_le (by norm_num) (duration_ge_half hd)
  have hcb : (c == 0) = false := beq_eq_false_iff_ne.mpr hc
  have hred : findAvailableVehicles st now crit =
      (if (st.vehicles.filter (fun v =>
            decide (c ≤ (v.capacityKg : ℚ)) && v.status == VehicleStatus.active)).length == 0
       then Except.ok ([], 0)
       else availabilityScan st.bookings f tp t (t + d * 3600000) d
              (st.vehicles.filter (fun v =>
                decide (c ≤ (v.capacityKg : ℚ)) && v.status == VehicleStatus.active))) := by
    unfold findAvailableVehicles
    simp only [hcap, hf, htp, hst, hcb, hfv, htv, hd, calculateEndTime_pos hdpos,
      Bool.and_self, Bool.not_true, Bool.false_eq_true, if_false,
      if_neg (not_le.mpr hnow)]
  by_cases hnil : (st.vehicles.filter (fun v =>
      decide (c ≤ (v.capacityKg : ℚ)) && v.status == VehicleStatus.active)) = []
  · refine ⟨[], 0, ?_, ?_, ?_, ?_, ?_⟩
    · rw [hred, hnil]
      rfl
    · rw [hnil]
      rfl
    · intro av hav
      cases hav
    · rw [hnil]
      rfl
    · intro _
      rw [hred, hnil]
      rfl
  · obtain ⟨res, n, hscan, hmap, hn, hall⟩ :=
      availabilityScan_spec st.bookings f tp t (t + d * 3600000) d hd
        (st.vehicles.filter (fun v =>
          decide (c ≤ (v.capacityKg : ℚ)) && v.status == VehicleStatus.active))
    have hlb : ((st.vehicles.filter (fun v =>
        decide (c ≤ (v.capacityKg : ℚ)) && v.status == VehicleStatus.active)).length == 0) = false := by
      simp [List.length_eq_zero, hnil]
    refine ⟨res, n, ?_, hmap, hall, hn, fun h => absurd h hnil⟩
    rw [hred, hlb]
    exact hscan

/-- A fully valid availability search against the sample store at time 0. -/
def sampleCriteria : SearchCriteria :=
  { capacityRequired := some 500, fromPincode := some "110001",
    toPincode := some "110002", startTime := some (.time 36000000) }

/-- C4 witness: the search specification applied to the sample store and
criteria. -/
theorem findAvailableVehicles_spec_witness :
    (sampleCriteria.capacityRequired = some 500 ∧ (500 : ℚ) ≠ 0 ∧
     sampleCriteria.fromPincode = some "110001" ∧
     sampleCriteria.toPincode = some "110002" ∧
     sampleCriteria.startTime = some (DateInput.time 36000000) ∧
     isValidPincode "110001" = true ∧ isValidPincode "110002" = true ∧
     (0 : ℚ) < 36000000 ∧
     calculateEstimatedDuration "110001" "110002" = some 1) ∧
    (∃ res n, findAvailableVehicles sampleState 0 sampleCriteria = Except.ok (res, n) ∧
      res.map (fun av => av.vehicle)
        = (sampleState.vehicles.filter (fun v =>
             decide ((500 : ℚ) ≤ (v.capacityKg : ℚ)) && v.status == VehicleStatus.active)).filter
            (fun v => (findOverlappingBookings sampleState.bookings v.id 36000000
                         (36000000 + 1 * 3600000) none).length == 0) ∧
      (∀ av ∈ res, av.estimatedRideDurationHours = 1 ∧
        getRouteInfo "110001" "110002" av.vehicle.capacityKg = some av.routeInfo ∧
        av.searchFromPincode = "110001" ∧ av.searchToPincode = "110002" ∧
        av.requestedStartTime = 36000000 ∧ av.requestedEndTime = 36000000 + 1 * 3600000) ∧
      n = (sampleState.vehicles.filter (fun v =>
             decide ((500 : ℚ) ≤ (v.capacityKg : ℚ)) && v.status == VehicleStatus.active)).length ∧
      ((sampleState.vehicles.filter (fun v =>
             decide ((500 : ℚ) ≤ (v.capacityKg : ℚ)) && v.status == VehicleStatus.active)) = [] →
        findAvailableVehicles sampleState 0 sampleCriteria = Except.ok ([], 0))) :=
  ⟨⟨rfl, by norm_num, rfl, rfl, rfl, by decide, by decide, by norm_num,
    by with_unfolding_all decide⟩,
   findAvailableVehicles_spec sampleState 0 sampleCriteria 500 "110001" "110002" 36000000 1
     rfl (by norm_num) rfl rfl rfl (by decide) (by decide) (by norm_num)
     (by with_unfolding_all decide)⟩

/-! ### C1 — the no-double-booking invariant -/

/-- A booking status is active iff it is confirmed or in-progress. -/
theorem isActiveStatus_iff {s : BookingStatus} :
    isActiveStatus s = true ↔ (s = BookingStatus.confirmed ∨ s = BookingStatus.inProgress) := by
  cases s <;> simp [isActiveStatus]

/-- Unfolding of the pairwise no-double-booking condition. -/
theorem activePairOK_eq_true {a b : Booking} :
    activePairOK a b = true ↔
      (a.vehicleId = b.vehicleId → isActiveStatus a.status = true →
       isActiveStatus b.status = true →
       ¬(a.startTime < b.endTime ∧ b.startTime < a.endTime)) := by
  unfold activePairOK overlapsB
  by_cases h1 : a.vehicleId = b.vehicleId <;>
  cases h2 : isActiveStatus a.status <;>
  cases h3 : isActiveStatus b.status <;>
  by_cases h4 : a.startTime < b.endTime <;>
  by_cases h5 : b.startTime < a.endTime <;>
  simp [h1, h2, h3, h4, h5]

/-- `createBooking` preserves the invariant: the new booking passed the
overlap check against every stored active booking of its vehicle. -/
theorem noActiveOverlap_createBooking (st : State) (now : ℚ) (inp : BookingInput)
    (h : noActiveOverlap st.bookings) :
    noActiveOverlap (createBooking st now inp).2.bookings := by
  rcases createBooking_cases st now inp with ⟨_, h2⟩ | ⟨b, heq, hconf, _, _, _, _, hquery⟩
  · rw [h2]
    exact h
  · rw [heq]
    unfold noActiveOverlap
    rw [List.pairwise_append]
    refine ⟨h, List.pairwise_singleton _ _, ?_⟩
    intro x hx y hy
    rw [List.mem_singleton] at hy
    subst hy
    rw [activePairOK_eq_true]
    intro hveh hxact _
    rintro ⟨ho1, ho2⟩
    have hnotm := List.filter_eq_nil_iff.mp hquery x hx
    apply hnotm
    rw [matchesOverlapQuery_eq_true]
    exact ⟨hveh, isActiveStatus_iff.mp hxact, ho1, ho2, by simp⟩

/-- `updateBookingStatus` preserves the invariant as long as it does not
move a stored non-active booking back to an active status: the merge
keeps vehicle and interval, so only a forbidden re-activation could
create a new overlap. -/
theorem noActiveOverlap_updateBookingStatus (st : State) (now : ℚ) (bookingId : ℕ)
    (status : BookingStatus) (u : UpdateData)
    (hguard : ∀ b ∈ st.bookings, b.id = bookingId →
      isActiveStatus b.status = false → isActiveStatus status = false)
    (h : noActiveOverlap st.bookings) :
    noActiveOverlap (updateBookingStatus st now bookingId status u).2.bookings := by
  unfold updateBookingStatus
  cases hfind : findBookingById st bookingId with
  | none =>
    simp only [hfind]
    exact h
  | some b =>
    simp only [hfind]
    unfold noActiveOverlap
    rw [List.pairwise_map]
    apply List.Pairwise.imp_of_mem ?_ h
    intro x y hx hy hxy
    rw [activePairOK_eq_true] at hxy ⊢
    by_cases hxid : x.id == bookingId <;> by_cases hyid : y.id == bookingId <;>
      simp only [hxid, hyid, if_true, if_false, mergeUpdate] <;>
      intro hveh hax hay hov
    · by_cases hsact : isActiveStatus status = true
      · have hxa : isActiveStatus x.status = true := by
          by_contra hxa
          have := hguard x hx (by simpa using hxid) (by simpa using hxa)
          rw [this] at hsact
          exact Bool.noConfusion hsact
        have hya : isActiveStatus y.status = true := by
          by_contra hya
          have := hguard y hy (by simpa using hyid) (by simpa using hya)
          rw [this] at hsact
          exact Bool.noConfusion hsact
        exact hxy hveh hxa hya hov
      · exact hsact hax
    · by_cases hsact : isActiveStatus status = true
      · have hxa : isActiveStatus x.status = true := by
          by_contra hxa
          have := hguard x hx (by simpa using hxid) (by simpa using hxa)
          rw [this] at hsact
          exact Bool.noConfusion hsact
        exact hxy hveh hxa hay hov
      · exact hsact hax
    · by_cases hsact : isActiveStatus status = true
      · have hya : isActiveStatus y.status = true := by
          by_contra hya
          have := hguard y hy (by simpa using hyid) (by simpa using hya)
          rw [this] at hsact
          exact Bool.noConfusion hsact
        exact hxy hveh hax hya hov
      · exact hsact hay
    · exact hxy hveh hax hay hov

/-- `cancelBooking` preserves the invariant: cancellation only ever sets
the non-active status cancelled. -/
theorem noActiveOverlap_cancelBooking (st : State) (now : ℚ) (bookingId : ℕ)
    (reason : String) (h : noActiveOverlap st.bookings) :
    noActiveOverlap (cancelBooking st now bookingId reason).2.bookings := by
  unfold cancelBooking
  cases hfind : findBookingById st bookingId with
  | none =>
    simp only [hfind]
    exact h
  | some b =>
    simp only [hfind]
    by_cases h1 : b.status == BookingStatus.completed
    · simp only [h1, if_true]
      exact h
    · by_cases h2 : b.status == BookingStatus.cancelled
      · simp only [h1, h2, Bool.false_eq_true, if_false, if_true]
        exact h
      · by_cases h3 : (b.startTime - now) / 3600000 < 2
        · simp only [h1, h2, Bool.false_eq_true, if_false, if_pos h3]
          exact h
        · simp only [h1, h2, Bool.false_eq_true, if_false, if_neg h3]
          exact noActiveOverlap_updateBookingStatus st now bookingId BookingStatus.cancelled _
            (fun _ _ _ _ => rfl) h

/-- `deleteBooking` preserves the invariant: removing a booking removes
pairs. -/
theorem noActiveOverlap_deleteBooking (st : State) (bookingId : ℕ)
    (h : noActiveOverlap st.bookings) :
    noActiveOverlap (deleteBooking st bookingId).2.bookings := by
  unfold deleteBooking
  cases hfind : findBookingById st bookingId with
  | none =>
    simp only [hfind]
    exact h
  | some b =>
    simp only [hfind]
    by_cases h1 : b.status != BookingStatus.cancelled
    · simp only [h1, if_true]
      exact h
    · simp only [h1, Bool.false_eq_true, if_false]
      exact List.Pairwise.sublist (List.filter_sublist _) h

/-- Vehicle creation does not touch the booking collection. -/
theorem createVehicle_bookings (st : State) (now : ℚ) (inp : VehicleInput) :
    (createVehicle st now inp).2.bookings = st.bookings := by
  unfold createVehicle
  dsimp only
  split <;> rfl

/-- Vehicle status updates do not touch the booking collection. -/
theorem updateVehicleStatus_bookings (st : State) (vehicleId : ℕ) (status : VehicleStatus) :
    (updateVehicleStatus st vehicleId status).2.bookings = st.bookings := by
  unfold updateVehicleStatus
  split <;> rfl

/-- Retiring a vehicle does not touch the booking collection. -/
theorem deleteVehicle_bookings (st : State) (vehicleId : ℕ) :
    (deleteVehicle st vehicleId).2.bookings = st.bookings := by
  unfold deleteVehicle
  dsimp only
  split
  · rfl
  · split <;> rfl

/-- C1 (amended): the invariant — pairwise disjoint [startTime, endTime)
intervals among each vehicle's confirmed / in-progress bookings — holds in
every state reachable by sequential operations in which no
`updateBookingStatus` call moves a stored booking from a non-active
status (completed or cancelled) back to an active one. -/
theorem noActiveOverlap_reachableTame (st : State) (h : ReachableTame st) :
    noActiveOverlap st.bookings := by
  induction h with
  | init => exact List.Pairwise.nil
  | stepCreateBooking st now inp _ ih => exact noActiveOverlap_createBooking st now inp ih
  | stepUpdateBookingStatus st now bookingId status u _ hguard ih =>
    exact noActiveOverlap_updateBookingStatus st now bookingId status u hguard ih
  | stepCancelBooking st now bookingId reason _ ih =>
    exact noActiveOverlap_cancelBooking st now bookingId reason ih
  | stepDeleteBooking st bookingId _ ih =>
    exact noActiveOverlap_deleteBooking st bookingId ih
  | stepCreateVehicle st now inp _ ih =>
    rw [createVehicle_bookings]
    exact ih
  | stepUpdateVehicleStatus st vehicleId status _ ih =>
    rw [updateVehicleStatus_bookings]
    exact ih
  | stepDeleteVehicle st vehicleId _ ih =>
    rw [deleteVehicle_bookings]
    exact ih

/-- Vehicle input of the C1 counterexample trace. -/
def cexVehicle : VehicleInput :=
  { name := "Truck", capacityKg := 1000, tyres := 4, registrationNumber := some "REG-1" }

/-- Booking request of the C1 counterexample trace (10h after epoch,
one-hour ride). -/
def cexBooking : BookingInput :=
  { vehicleId := some 0, fromPincode := some "110001", toPincode := some "110002",
    startTime := some (.time 36000000), customerId := some "cust-1" }

/-- The C1 counterexample trace: create a vehicle, book it, cancel the
booking, book the identical window again, then re-activate the cancelled
booking through `updateBookingStatus` — all operations succeed. -/
def cexOps : List Op :=
  [ .createVehicle 0 cexVehicle,
    .createBooking 0 cexBooking,
    .cancelBooking 0 0 "",
    .createBooking 0 cexBooking,
    .updateBookingStatus 0 0 .confirmed emptyUpdate ]

/-- The vehicle document created by the trace. -/
def cexV : Vehicle :=
  { id := 0, name := "Truck", capacityKg := 1000, tyres := 4, status := .active,
    registrationNumber := "REG-1", createdAt := 0 }

/-- The first booking document created by the trace. -/
def cexB0 : Booking :=
  { id := 0, vehicleId := 0, customerId := "cust-1", fromPincode := "110001",
    toPincode := "110002", startTime := 36000000, endTime := 39600000,
    estimatedRideDurationHours := 1, status := .confirmed, actualStartTime := none,
    actualEndTime := none, notes := none, createdAt := 0 }

/-- Store after op 1 of the trace. -/
def cexState1 : State :=
  { vehicles := [cexV], bookings := [], nextVehicleId := 1, nextBookingId := 0 }

/-- Store after op 2. -/
def cexState2 : State :=
  { cexState1 with bookings := [cexB0], nextBookingId := 1 }

/-- Store after op 3. -/
def cexState3 : State :=
  { cexState1 with
      bookings := [{ cexB0 with status := .cancelled, notes := some "Cancelled by user" }],
      nextBookingId := 1 }

/-- Store after op 4. -/
def cexState4 : State :=
  { cexState1 with
      bookings := [{ cexB0 with status := .cancelled, notes := some "Cancelled by user" },
                   { cexB0 with id := 1 }],
      nextBookingId := 2 }

/-- Store after op 5: both bookings confirmed on the same vehicle over
the identical window. -/
def cexState5 : State :=
  { cexState1 with
      bookings := [{ cexB0 with notes := some "Cancelled by user" },
                   { cexB0 with id := 1 }],
      nextBookingId := 2 }

/-- Evaluation of op 1 of the trace. -/
theorem cexStep1 : applyOp initialState (Op.createVehicle 0 cexVehicle) = cexState1 := rfl

/-- Evaluation of op 2 of the trace. -/
theorem cexStep2 : applyOp cexState1 (Op.createBooking 0 cexBooking) = cexState2 := by
  show (createBooking cexState1 0 cexBooking).2 = cexState2
  rw [createBooking_reduced cexState1 0 cexBooking 0 "110001" "110002" "cust-1" 36000000 cexV 1
    rfl rfl rfl rfl rfl rfl rfl (by decide) (by decide) (by norm_num)
    (by with_unfolding_all decide)]
  rw [show findOverlappingBookings cexState1.bookings 0 36000000 (36000000 + 1 * 3600000)
        none = [] from rfl]
  rw [if_neg (by norm_num)]
  norm_num [cexState1, cexState2, cexB0, newBooking, State.mk.injEq, Booking.mk.injEq]

/-- Evaluation of op 3 of the trace. -/
theorem cexStep3 : applyOp cexState2 (Op.cancelBooking 0 0 "") = cexState3 := by
  show (cancelBooking cexState2 0 0 "").2 = cexState3
  unfold cancelBooking
  simp only [show findBookingById cexState2 0 = some cexB0 from rfl,
    show (cexB0.status == BookingStatus.completed) = false from rfl,
    show (cexB0.status == BookingStatus.cancelled) = false from rfl,
    Bool.false_eq_true, if_false]
  rw [if_neg (show ¬((cexB0.startTime - 0) / 3600000 < 2) from by with_unfolding_all decide)]
  rfl

/-- Evaluation of op 4 of the trace: the first booking is cancelled, so
the overlap query sees no active booking and the identical window is
accepted. -/
theorem cexStep4 : applyOp cexState3 (Op.createBooking 0 cexBooking) = cexState4 := by
  show (createBooking cexState3 0 cexBooking).2 = cexState4
  rw [createBooking_reduced cexState3 0 cexBooking 0 "110001" "110002" "cust-1" 36000000 cexV 1
    rfl rfl rfl rfl rfl rfl rfl (by decide) (by decide) (by norm_num)
    (by with_unfolding_all decide)]
  rw [show findOverlappingBookings cexState3.bookings 0 36000000 (36000000 + 1 * 3600000)
        none = [] from rfl]
  rw [if_neg (by norm_num)]
  norm_num [cexState1, cexState3, cexState4, cexB0, newBooking, State.mk.injEq, Booking.mk.injEq]

/-- Evaluation of op 5 of the trace: the cancelled booking is re-activated
with no overlap re-check. -/
theorem cexStep5 :
    applyOp cexState4 (Op.updateBookingStatus 0 0 .confirmed emptyUpdate) = cexState5 := rfl

/-- The whole trace evaluates to the violating store. -/
theorem cexRun : runOps cexOps = cexState5 := by
  show applyOp (applyOp (applyOp (applyOp (applyOp initialState
    (Op.createVehicle 0 cexVehicle)) (Op.createBooking 0 cexBooking))
    (Op.cancelBooking 0 0 "")) (Op.createBooking 0 cexBooking))
    (Op.updateBookingStatus 0 0 .confirmed emptyUpdate) = cexState5
  rw [cexStep1, cexStep2, cexStep3, cexStep4, cexStep5]

/-- C1 counterexample: the concrete operation sequence `cexOps` reaches a
store holding two confirmed bookings of the same vehicle over the same
[36000000, 39600000) window, so the stated invariant fails on a reachable
state. -/
theorem noActiveOverlap_counterexample :
    runOps cexOps = cexState5 ∧
    (cexState5.bookings.map (fun b =>
        (b.vehicleId, b.status == BookingStatus.confirmed, b.startTime, b.endTime)))
      = [(0, true, 36000000, 39600000), (0, true, 36000000, 39600000)] ∧
    ¬ noActiveOverlap (runOps cexOps).bookings := by
  refine ⟨cexRun, by decide, ?_⟩
  rw [cexRun]
  decide

/-- C1 witness: the amended invariant theorem applied to the tame-reachable
store holding one vehicle and one confirmed booking. -/
theorem noActiveOverlap_reachableTame_witness :
    noActiveOverlap ((createBooking (createVehicle initialState 0 cexVehicle).2
      0 cexBooking).2).bookings :=
  noActiveOverlap_reachableTame _
    (ReachableTame.stepCreateBooking _ 0 cexBooking
      (ReachableTame.stepCreateVehicle _ 0 cexVehicle ReachableTame.init))

end FleetLink
